import Mathlib

/-
Shallow embedding of src/tools/rdm/TestDefinitions.py (OLA RDM responder
tests).  Pure data (catalog metadata, expected-result lists) and the
control flow of the `Test` / continuation methods are translated directly
from the source.  The expected-result matcher, the result registration
helper `AddExpectedResults` and the `PidStore` constants live in modules
that are not part of this repository snapshot; those definitions are
modelled from the specification and are marked as such in their doc
comments.
-/

-- Constants from TestDefinitions.py lines 32-34.
def MAX_DMX_ADDRESS : Nat := 512

def MAX_LABEL_SIZE : Nat := 32

def MAX_PERSONALITY_NUMBER : Nat := 255

/-- Modelled from the spec: `PidStore.MAX_VALID_SUB_DEVICE` is imported from
the parameter registry module, which is outside this repository snapshot.
The RDM sub-device address space allows sub devices 1..512, and the spec
only requires the continuation bound to be this constant. -/
def MAX_VALID_SUB_DEVICE : Nat := 512

/-- Modelled from the spec: `PidStore.ROOT_DEVICE` (the root target of a
request) is imported from the parameter registry module. -/
def ROOT_DEVICE : Nat := 0

namespace RDMNack

/-- Modelled from the spec: the rejection reason codes imported from
`ola.OlaClient.RDMNack`; the numeric values follow the E1.20 standard and
are never compared across modules, only for equality. -/
def NR_UNKNOWN_PID : Nat := 0

def NR_FORMAT_ERROR : Nat := 1

def NR_HARDWARE_FAULT : Nat := 2

def NR_PROXY_REJECT : Nat := 3

def NR_WRITE_PROTECT : Nat := 4

def NR_UNSUPPORTED_COMMAND_CLASS : Nat := 5

def NR_DATA_OUT_OF_RANGE : Nat := 6

def NR_BUFFER_FULL : Nat := 7

def NR_PACKET_SIZE_UNSUPPORTED : Nat := 8

def NR_SUB_DEVICE_OUT_OF_RANGE : Nat := 9

end RDMNack

/-- Static metadata of one test class: its name, its PROVIDES list and its
REQUIRES list, exactly as declared in TestDefinitions.py (classes that do
not declare an attribute get the empty list). -/
structure TestDef where
  name : String
  provides : List String
  requires : List String
deriving DecidableEq, Repr

/-- Test classes of TestDefinitions.py, in file order, first quarter
(lines 51-367). -/
def testCatalogA : List TestDef := [
  ⟨"GetDeviceInfo",
    ["dmx_start_address", "current_personality", "dmx_footprint",
     "personality_count", "sub_device_count"], []⟩,
  ⟨"GetDeviceInfoWithData", [], []⟩,
  ⟨"SetDeviceInfo", [], []⟩,
  ⟨"AllSubDevicesDeviceInfo", [], []⟩,
  ⟨"GetSupportedParameters",
    ["manufacturer_parameters", "supported_parameters"], []⟩,
  ⟨"GetSupportedParametersWithData", [], []⟩,
  ⟨"SetSupportedParameters", [], []⟩,
  ⟨"FindSubDevices", ["sub_device_indices"], ["sub_device_count"]⟩,
  ⟨"GetParamDescription", [], ["manufacturer_parameters"]⟩,
  ⟨"GetParamDescriptionForNonManufacturerPid", [],
    ["manufacturer_parameters"]⟩,
  ⟨"GetParamDescriptionWithData", [], ["manufacturer_parameters"]⟩]

/-- Test classes of TestDefinitions.py, in file order, second quarter
(lines 392-647). -/
def testCatalogB : List TestDef := [
  ⟨"GetCommsStatus", [], []⟩,
  ⟨"GetCommsStatusWithData", [], []⟩,
  ⟨"ClearCommsStatus", [], []⟩,
  ⟨"ClearCommsStatusWithData", [], []⟩,
  ⟨"GetProductDetailIdList", [], []⟩,
  ⟨"GetProductDetailIdListWithData", [], []⟩,
  ⟨"SetProductDetailIdList", [], []⟩,
  ⟨"GetDeviceModelDescription", [], []⟩,
  ⟨"GetDeviceModelDescriptionWithData", [], []⟩,
  ⟨"SetDeviceModelDescription", [], []⟩,
  ⟨"SetDeviceModelDescriptionWithData", [], []⟩,
  ⟨"GetManufacturerLabel", [], []⟩,
  ⟨"GetManufacturerLabelWithData", [], []⟩,
  ⟨"SetManufacturerLabel", [], []⟩,
  ⟨"SetManufacturerLabelWithData", [], []⟩,
  ⟨"GetDeviceLabel", ["device_label"], []⟩,
  ⟨"GetDeviceLabelWithData", [], []⟩,
  ⟨"SetDeviceLabel", [], ["device_label"]⟩,
  ⟨"SetFullSizeDeviceLabel", [], ["device_label"]⟩,
  ⟨"SetNonAsciiDeviceLabel", [], ["device_label"]⟩,
  ⟨"SetEmptyDeviceLabel", [], ["device_label"]⟩,
  ⟨"SetOversizedDeviceLabel", [], ["device_label"]⟩,
  ⟨"GetFactoryDefaults", [], []⟩,
  ⟨"GetFactoryDefaultsWithData", [], []⟩,
  ⟨"ResetFactoryDefaults", [], []⟩,
  ⟨"ResetFactoryDefaultsWithData", [], []⟩]

/-- Test classes of TestDefinitions.py, in file order, third quarter
(lines 652-1153). -/
def testCatalogC : List TestDef := [
  ⟨"GetLanguageCapabilities", ["languages_capabilities"], []⟩,
  ⟨"GetLanguageCapabilitiesWithData", [], []⟩,
  ⟨"GetLanguage", ["language"], []⟩,
  ⟨"SetLanguage", [], ["language", "languages_capabilities"]⟩,
  ⟨"SetNonAsciiLanguage", [], []⟩,
  ⟨"SetUnsupportedLanguage", [], ["languages_capabilities"]⟩,
  ⟨"GetSoftwareVersionLabel", [], []⟩,
  ⟨"GetSoftwareVersionLabelWithData", [], []⟩,
  ⟨"SetSoftwareVersionLabel", [], []⟩,
  ⟨"GetBootSoftwareVersion", [], []⟩,
  ⟨"GetBootSoftwareVersionWithData", [], []⟩,
  ⟨"SetBootSoftwareVersion", [], []⟩,
  ⟨"GetBootSoftwareLabel", [], []⟩,
  ⟨"GetBootSoftwareLabelWithData", [], []⟩,
  ⟨"SetBootSoftwareLabel", [], []⟩,
  ⟨"GetZeroPersonalityDescription", [], []⟩,
  ⟨"GetOutOfRangePersonalityDescription", [], ["personality_count"]⟩,
  ⟨"GetPersonalityDescription", [],
    ["current_personality", "dmx_footprint"]⟩,
  ⟨"GetPersonality", [], ["current_personality", "personality_count"]⟩,
  ⟨"GetPersonalities", ["personalities"], ["personality_count"]⟩,
  ⟨"SetPersonality", [],
    ["current_personality", "personality_count", "personalities"]⟩,
  ⟨"SetZeroPersonality", [], []⟩,
  ⟨"SetOutOfRangePersonality", [], ["personality_count"]⟩,
  ⟨"SetOversizedPersonality", [], []⟩,
  ⟨"GetStartAddress", ["dmx_address"],
    ["dmx_footprint", "dmx_start_address"]⟩,
  ⟨"SetStartAddress", [], ["dmx_footprint", "dmx_address"]⟩,
  ⟨"SetOutOfRangeStartAddress", [], ["dmx_footprint"]⟩,
  ⟨"SetZeroStartAddress", [], ["dmx_footprint"]⟩,
  ⟨"SetOversizedStartAddress", [], ["dmx_footprint"]⟩]

/-- Test classes of TestDefinitions.py, in file order, last quarter
(lines 1158-1611). -/
def testCatalogD : List TestDef := [
  ⟨"GetDeviceHours", ["device_hours"], []⟩,
  ⟨"GetDeviceHoursWithData", [], []⟩,
  ⟨"SetDeviceHours", [], ["device_hours"]⟩,
  ⟨"SetDeviceHoursWithNoData", [], []⟩,
  ⟨"GetLampHours", ["lamp_hours"], []⟩,
  ⟨"GetLampHoursWithData", [], []⟩,
  ⟨"SetLampHours", [], ["lamp_hours"]⟩,
  ⟨"SetLampHoursWithNoData", [], []⟩,
  ⟨"GetLampStrikes", ["lamp_strikes"], []⟩,
  ⟨"GetLampStrikesWithData", [], []⟩,
  ⟨"SetLampStrikes", [], ["lamp_strikes"]⟩,
  ⟨"SetLampStrikesWithNoData", [], []⟩,
  ⟨"GetDevicePowerCycles", ["power_cycles"], []⟩,
  ⟨"GetDevicePowerCyclesWithData", [], []⟩,
  ⟨"SetDevicePowerCycles", [], ["power_cycles"]⟩,
  ⟨"SetDevicePowerCyclesWithNoData", [], []⟩,
  ⟨"GetDisplayLevel", ["display_level"], []⟩,
  ⟨"GetDisplayLevelWithData", [], []⟩,
  ⟨"SetDisplayLevel", [], ["display_level"]⟩,
  ⟨"SetDisplayLevelWithNoData", [], []⟩,
  ⟨"GetPanInvert", ["pan_invert"], []⟩,
  ⟨"GetPanInvertWithData", [], []⟩,
  ⟨"SetPanInvert", [], ["pan_invert"]⟩,
  ⟨"SetPanInvertWithNoData", [], []⟩,
  ⟨"GetTiltInvert", ["tilt_invert"], []⟩,
  ⟨"GetTiltInvertWithData", [], []⟩,
  ⟨"SetTiltInvert", [], ["tilt_invert"]⟩,
  ⟨"SetTiltInvertWithNoData", [], []⟩,
  ⟨"GetPanTiltSwap", ["pan_tilt_swap"], []⟩,
  ⟨"GetPanTiltSwapWithData", [], []⟩,
  ⟨"SetPanTiltSwap", [], ["pan_tilt_swap"]⟩,
  ⟨"SetPanTiltSwapWithNoData", [], []⟩,
  ⟨"GetRealTimeClock", [], []⟩,
  ⟨"GetRealTimeClockWithData", [], []⟩,
  ⟨"SetRealTimeClock", [], []⟩,
  ⟨"SetRealTimeClockWithNoData", [], []⟩,
  ⟨"GetIdentifyDevice", ["identify_state"], []⟩,
  ⟨"GetIdentifyDeviceWithData", [], []⟩,
  ⟨"SetIdentifyDevice", [], ["identify_state"]⟩,
  ⟨"SetIdentifyDeviceWithNoData", [], []⟩,
  ⟨"GetPowerState", ["power_state"], []⟩,
  ⟨"GetPowerStateWithData", [], []⟩,
  ⟨"SetPowerState", [], ["power_state"]⟩,
  ⟨"SetPowerStateWithNoData", [], []⟩]

/-- The full catalog of test classes defined in TestDefinitions.py, in file
order, with the PROVIDES / REQUIRES attributes declared in that file. -/
def testCatalog : List TestDef :=
  testCatalogA ++ testCatalogB ++ testCatalogC ++ testCatalogD

/-- Counts how many catalog entries declare `property` in PROVIDES. -/
def providerCount (catalog : List TestDef) (property : String) : Nat :=
  catalog.countP (fun s => s.provides.contains property)

/-- Checks that every name in any REQUIRES list has exactly one provider in
the catalog. -/
def requiresHaveUniqueProvider (catalog : List TestDef) : Bool :=
  catalog.all (fun t =>
    t.requires.all (fun r => providerCount catalog r == 1))

/-- C1: every property name appearing in a REQUIRES list of the catalog in
TestDefinitions.py is declared in the PROVIDES list of exactly one test
class of that catalog. -/
theorem catalog_requires_have_unique_provider :
    requiresHaveUniqueProvider testCatalog = true := by decide

/-- Modelled from the spec: an Expected Result (spec section 3) as built by
the `ResponderTest.ExpectedResult` constructors `AckResponse` /
`NackResponse`, which live outside this repository snapshot.  It records
the expected response kind, the required rejection reason, the required
field names and field values for an acknowledgement, an optional warning or
advisory message, and whether the entry carries a continuation. -/
structure ExpectedResult where
  isAck : Bool
  nackReason : Nat
  requiredFields : List String
  fieldValues : List (String × Int)
  warning : Option String
  advisory : Option String
  hasAction : Bool
deriving DecidableEq, Repr

/-- Mirrors `self.AckResponse(field_names, field_values, warning, advisory,
action)`; arguments are positional in that order, with `hasAction` true when
an `action=` continuation was supplied. -/
def ackResult (requiredFields : List String) (fieldValues : List (String × Int))
    (warning advisory : Option String) (hasAction : Bool) : ExpectedResult :=
  ⟨true, 0, requiredFields, fieldValues, warning, advisory, hasAction⟩

/-- Mirrors `self.NackResponse(nack_reason, warning, advisory, action)`. -/
def nackResult (reason : Nat) (warning advisory : Option String)
    (hasAction : Bool) : ExpectedResult :=
  ⟨false, reason, [], [], warning, advisory, hasAction⟩

/-- A received response: either acknowledged with a field map, or rejected
with a reason code. -/
inductive Response where
  | ackResp (fields : List (String × Int))
  | nackResp (reason : Nat)
deriving DecidableEq, Repr

/-- Looks up a field value in the structured field map of a response. -/
def lookupField (fields : List (String × Int)) (field : String) : Option Int :=
  fields.lookup field

/-- Modelled from the spec: predicate evaluation of one Expected Result
against the actual response (spec section 4.4): the response kind must
match exactly; a rejection must carry the expected reason code; an
acknowledgement must contain every required field and every
explicitly-constrained field must equal its expected value, other fields
being unconstrained. -/
def entryMatches (e : ExpectedResult) (r : Response) : Bool :=
  match r with
  | .ackResp fields =>
      e.isAck
        && e.requiredFields.all (fun f => (lookupField fields f).isSome)
        && e.fieldValues.all (fun kv => lookupField fields kv.1 == some kv.2)
  | .nackResp reason => (!e.isAck) && (e.nackReason == reason)

/-- Modelled from the spec: the matcher scans the ordered Expected-Result
list and the first entry whose predicate holds is the match (spec section
4.4). -/
def firstMatch : List ExpectedResult → Response → Option ExpectedResult
  | [], _ => none
  | e :: rest, r => if entryMatches e r then some e else firstMatch rest r

/-- Modelled from the spec: position of the matching entry in declared
order, when one exists. -/
def firstMatchIdx : List ExpectedResult → Response → Option Nat
  | [], _ => none
  | e :: rest, r =>
      if entryMatches e r then some 0 else (firstMatchIdx rest r).map (· + 1)

/-- Verdict of one matched exchange. -/
inductive Verdict where
  | pass
  | fail
deriving DecidableEq, Repr

/-- Modelled from the spec: a response matching some entry yields PASS (a
severity tag never downgrades the verdict, spec section 4.4 rule 4); no
match among all entries yields FAIL. -/
def matchVerdict (results : List ExpectedResult) (r : Response) : Verdict :=
  if (firstMatch results r).isSome then .pass else .fail

/-- Modelled from the spec: the warning / advisory messages appended to the
report by the matched entry. -/
def matchMessages (results : List ExpectedResult) (r : Response) : List String :=
  match firstMatch results r with
  | some e => e.warning.toList ++ e.advisory.toList
  | none => []

/-- Argument to `AddExpectedResults`: the source passes either a bare
ExpectedResult or a list of them. -/
inductive ResultsArg where
  | single (result : ExpectedResult)
  | many (results : List ExpectedResult)
deriving DecidableEq, Repr

/-- Modelled from the spec: `AddExpectedResults` registers the
Expected-Result set for the outstanding request; this spec treats every
Expected-Result set as a list, possibly of length one (spec section 9), so
a bare value registers as the one-element list. -/
def addExpectedResults : ResultsArg → List ExpectedResult
  | .single e => [e]
  | .many l => l

/-- Outcome of running a `Test` (initiate) body: the single request it sends
together with its registered Expected-Result list, or an early
self-termination, or an uncaught Python exception. -/
inductive TestAction where
  | getRequest (subDevice : Nat) (pid : String) (args : List Int)
      (expected : List ExpectedResult)
  | rawGetRequest (subDevice : Nat) (pid : String) (data : String)
      (expected : List ExpectedResult)
  | setRequest (subDevice : Nat) (pid : String) (args : List String)
      (expected : List ExpectedResult)
  | setNotRun (message : String)
  | setBroken (message : String)
  | pyError (message : String)
deriving DecidableEq, Repr

-- GetDeviceInfo (TestDefinitions.py lines 38-65)

/-- DeviceInfoTest.FIELDS (lines 42-44). -/
def deviceInfoFields : List String :=
  ["device_model", "product_category", "software_version",
   "dmx_footprint", "current_personality", "personality_count",
   "dmx_start_address", "sub_device_count", "sensor_count"]

/-- DeviceInfoTest.FIELD_VALUES (lines 45-48). -/
def deviceInfoFieldValues : List (String × Int) :=
  [("protocol_major", 1), ("protocol_minor", 0)]

/-- The scalar expected result registered by GetDeviceInfo.Test (line 64):
`self.AckResponse(self.FIELDS, self.FIELD_VALUES)`. -/
def getDeviceInfoAck : ExpectedResult :=
  ackResult deviceInfoFields deviceInfoFieldValues none none false

/-- GetDeviceInfo.Test (lines 63-65): registers the bare ack result and
sends a GET DEVICE_INFO to the root device. -/
def getDeviceInfoTest : TestAction :=
  .getRequest ROOT_DEVICE "DEVICE_INFO" []
    (addExpectedResults (.single getDeviceInfoAck))

/-- Whether an acknowledged field map satisfies the DEVICE_INFO constraints
of the catalog entries built from FIELDS and FIELD_VALUES: all nine fields
present and the protocol version fields equal to 1 and 0. -/
def deviceInfoAckOk (fields : List (String × Int)) : Bool :=
  deviceInfoFields.all (fun f => (lookupField fields f).isSome)
    && deviceInfoFieldValues.all (fun kv => lookupField fields kv.1 == some kv.2)

-- GetDeviceInfoWithData (lines 93-105)

/-- The Expected-Result list of GetDeviceInfoWithData.Test (lines 98-104):
a NR_FORMAT_ERROR nack, then a warning-tagged ack over the same fields; the
warning string interpolates the pid name DEVICE_INFO. -/
def getDeviceInfoWithDataExpected : List ExpectedResult :=
  [nackResult RDMNack.NR_FORMAT_ERROR none none false,
   ackResult deviceInfoFields deviceInfoFieldValues
     (some "Get DEVICE_INFO with data returned an ack") none false]

/-- GetDeviceInfoWithData.Test (lines 97-105): registers the two-entry list
and sends a raw GET with data "foo". -/
def getDeviceInfoWithDataTest : TestAction :=
  .rawGetRequest ROOT_DEVICE "DEVICE_INFO" "foo"
    (addExpectedResults (.many getDeviceInfoWithDataExpected))

/-- C2: against GetDeviceInfoWithData's declared-order list, a
NR_FORMAT_ERROR rejection matches the first entry and yields no warning
message, while an acknowledged DEVICE_INFO response matches the second
entry. -/
theorem device_info_with_data_first_match (fields : List (String × Int))
    (h : deviceInfoAckOk fields = true) :
    firstMatchIdx getDeviceInfoWithDataExpected
        (.nackResp RDMNack.NR_FORMAT_ERROR) = some 0
      ∧ matchMessages getDeviceInfoWithDataExpected
          (.nackResp RDMNack.NR_FORMAT_ERROR) = []
      ∧ firstMatchIdx getDeviceInfoWithDataExpected (.ackResp fields) = some 1 := by
  refine ⟨by decide, by decide, ?_⟩
  have h0 : entryMatches (nackResult RDMNack.NR_FORMAT_ERROR none none false)
      (.ackResp fields) = false := rfl
  have hm : entryMatches
      (ackResult deviceInfoFields deviceInfoFieldValues
        (some "Get DEVICE_INFO with data returned an ack") none false)
      (.ackResp fields) = true := h
  simp [firstMatchIdx, getDeviceInfoWithDataExpected, h0, hm]

/-- A sample well-formed DEVICE_INFO acknowledgement field map. -/
def sampleDeviceInfoFields : List (String × Int) :=
  [("device_model", 1), ("product_category", 1), ("software_version", 1),
   ("dmx_footprint", 4), ("current_personality", 1), ("personality_count", 2),
   ("dmx_start_address", 1), ("sub_device_count", 0), ("sensor_count", 0),
   ("protocol_major", 1), ("protocol_minor", 0)]

/-- Witness for C2 at a concrete acknowledged response. -/
theorem device_info_with_data_first_match_witness :
    deviceInfoAckOk sampleDeviceInfoFields = true
      ∧ firstMatchIdx getDeviceInfoWithDataExpected
          (.ackResp sampleDeviceInfoFields) = some 1 :=
  ⟨by decide,
   (device_info_with_data_first_match sampleDeviceInfoFields (by decide)).2.2⟩

-- GetParamDescription (lines 304-326)

/-- GetParamDescription.Test plus its first `_GetParam` step (lines
310-326): with no manufacturer params the test sets NOT-RUN and stops
before sending anything; otherwise `_GetParam` registers a bare
continuation-carrying ack result, pops the last element of the copied
parameter list and sends a GET for it. -/
def getParamDescriptionTest (manufacturer_parameters : List Int) : TestAction :=
  if manufacturer_parameters.length = 0 then
    .setNotRun " No manufacturer params found"
  else
    .getRequest ROOT_DEVICE "PARAMETER_DESCRIPTION"
      [manufacturer_parameters.getLastD 0]
      (addExpectedResults (.single (ackResult [] [] none none true)))

-- SetUnsupportedLanguage (lines 743-759)

/-- The Expected-Result list of SetUnsupportedLanguage.Test (lines
755-758): either of two rejection reasons is acceptable. -/
def setUnsupportedLanguageExpected : List ExpectedResult :=
  [nackResult RDMNack.NR_UNSUPPORTED_COMMAND_CLASS none none false,
   nackResult RDMNack.NR_DATA_OUT_OF_RANGE none none false]

/-- SetUnsupportedLanguage.Test (lines 749-759): if "zz" is already an
available language the test sets BROKEN and stops before sending anything;
otherwise it registers the two acceptable nacks (via AddIfSupported, which
registers them when the LANGUAGE parameter is supported) and sends the SET
with language "zz". -/
def setUnsupportedLanguageTest (languages_capabilities : List String) :
    TestAction :=
  if languages_capabilities.contains "zz" then
    .setBroken "zz exists in the list of available languages"
  else
    .setRequest ROOT_DEVICE "LANGUAGE" ["zz"] setUnsupportedLanguageExpected

/-- C4: a precondition read from the Property Store can terminate a test
before any request is sent: GetParamDescription with an empty
manufacturer-parameter list sets NOT-RUN, and SetUnsupportedLanguage with
"zz" among the language capabilities sets BROKEN; neither sends a
request. -/
theorem early_termination_without_request (languages_capabilities : List String)
    (h : languages_capabilities.contains "zz" = true) :
    getParamDescriptionTest [] = .setNotRun " No manufacturer params found"
      ∧ setUnsupportedLanguageTest languages_capabilities =
          .setBroken "zz exists in the list of available languages" := by
  constructor
  · rfl
  · have hmem : "zz" ∈ languages_capabilities := by simpa using h
    simp [setUnsupportedLanguageTest, hmem]

/-- Witness for C4 with the capability list ["zz"]. -/
theorem early_termination_without_request_witness :
    getParamDescriptionTest [] = .setNotRun " No manufacturer params found"
      ∧ setUnsupportedLanguageTest ["zz"] =
          .setBroken "zz exists in the list of available languages" :=
  early_termination_without_request ["zz"] (by decide)

-- GetParamDescriptionForNonManufacturerPid (lines 348-367)

/-- Modelled from the spec: the numeric value of the DEVICE_INFO parameter
id returned by `self.LookupPid` from the parameter registry, which is
outside this repository snapshot (E1.20 value 0x60); the tests only pass it
through as request data. -/
def DEVICE_INFO_PID_VALUE : Int := 96

/-- The Expected-Result argument built by
GetParamDescriptionForNonManufacturerPid.Test (lines 356-364): a two-entry
list by default, replaced by a bare NR_DATA_OUT_OF_RANGE nack when any
manufacturer parameters were declared.  The advisory string is the source's
two adjacent literals concatenated, which lack a separating space. -/
def getParamDescriptionForNonManufacturerPidResults
    (manufacturer_parameters : List Int) : ResultsArg :=
  let base := ResultsArg.many
    [nackResult RDMNack.NR_UNKNOWN_PID none none false,
     nackResult RDMNack.NR_DATA_OUT_OF_RANGE none
       (some "Parameter Description appears to be supported but nomanufacturer pids were declared")
       false]
  if manufacturer_parameters.isEmpty then base
  else ResultsArg.single (nackResult RDMNack.NR_DATA_OUT_OF_RANGE none none false)

/-- GetParamDescriptionForNonManufacturerPid.Test (lines 354-367). -/
def getParamDescriptionForNonManufacturerPidTest
    (manufacturer_parameters : List Int) : TestAction :=
  .getRequest ROOT_DEVICE "PARAMETER_DESCRIPTION" [DEVICE_INFO_PID_VALUE]
    (addExpectedResults
      (getParamDescriptionForNonManufacturerPidResults manufacturer_parameters))

/-- C5: a severity tag on the matched entry appends its message but leaves
the verdict PASS: a well-formed acknowledgement of GetDeviceInfoWithData
matches the warning-tagged entry, and with no manufacturer parameters a
NR_DATA_OUT_OF_RANGE rejection of GetParamDescriptionForNonManufacturerPid
matches the advisory-tagged entry; both classify as PASS with exactly the
tagged message. -/
theorem severity_tag_preserves_pass (fields : List (String × Int))
    (h : deviceInfoAckOk fields = true) :
    matchVerdict getDeviceInfoWithDataExpected (.ackResp fields) = .pass
      ∧ matchMessages getDeviceInfoWithDataExpected (.ackResp fields) =
          ["Get DEVICE_INFO with data returned an ack"]
      ∧ matchVerdict
          (addExpectedResults (getParamDescriptionForNonManufacturerPidResults []))
          (.nackResp RDMNack.NR_DATA_OUT_OF_RANGE) = .pass
      ∧ matchMessages
          (addExpectedResults (getParamDescriptionForNonManufacturerPidResults []))
          (.nackResp RDMNack.NR_DATA_OUT_OF_RANGE) =
          ["Parameter Description appears to be supported but nomanufacturer pids were declared"] := by
  have h0 : entryMatches (nackResult RDMNack.NR_FORMAT_ERROR none none false)
      (.ackResp fields) = false := rfl
  have hm : entryMatches
      (ackResult deviceInfoFields deviceInfoFieldValues
        (some "Get DEVICE_INFO with data returned an ack") none false)
      (.ackResp fields) = true := h
  have hfm : firstMatch getDeviceInfoWithDataExpected (.ackResp fields) =
      some (ackResult deviceInfoFields deviceInfoFieldValues
        (some "Get DEVICE_INFO with data returned an ack") none false) := by
    simp [firstMatch, getDeviceInfoWithDataExpected, h0, hm]
  refine ⟨?_, ?_, by decide, by decide⟩
  · simp [matchVerdict, hfm]
  · simp [matchMessages, hfm, ackResult]

/-- Witness for C5 at a concrete acknowledged response. -/
theorem severity_tag_preserves_pass_witness :
    deviceInfoAckOk sampleDeviceInfoFields = true
      ∧ matchVerdict getDeviceInfoWithDataExpected
          (.ackResp sampleDeviceInfoFields) = .pass :=
  ⟨by decide, (severity_tag_preserves_pass sampleDeviceInfoFields (by decide)).1⟩

/-- C6: with the LANGUAGE parameter supported and "zz" absent from the
language capabilities, SetUnsupportedLanguage registers two acceptable
rejection reasons; a rejection carrying either one matches an entry, and a
rejection carrying any other reason matches no entry. -/
theorem unsupported_language_nack_reasons (languages_capabilities : List String)
    (h : languages_capabilities.contains "zz" = false) (reason : Nat)
    (h1 : reason ≠ RDMNack.NR_UNSUPPORTED_COMMAND_CLASS)
    (h2 : reason ≠ RDMNack.NR_DATA_OUT_OF_RANGE) :
    setUnsupportedLanguageTest languages_capabilities =
        .setRequest ROOT_DEVICE "LANGUAGE" ["zz"] setUnsupportedLanguageExpected
      ∧ (firstMatch setUnsupportedLanguageExpected
          (.nackResp RDMNack.NR_UNSUPPORTED_COMMAND_CLASS)).isSome = true
      ∧ (firstMatch setUnsupportedLanguageExpected
          (.nackResp RDMNack.NR_DATA_OUT_OF_RANGE)).isSome = true
      ∧ firstMatch setUnsupportedLanguageExpected (.nackResp reason) = none := by
  have hmem : "zz" ∉ languages_capabilities := by simpa using h
  refine ⟨by simp [setUnsupportedLanguageTest, hmem], by decide, by decide, ?_⟩
  have e1 : entryMatches
      (nackResult RDMNack.NR_UNSUPPORTED_COMMAND_CLASS none none false)
      (.nackResp reason) = false := by
    simp only [entryMatches, nackResult]
    simpa using fun hv => (h1 hv.symm).elim
  have e2 : entryMatches (nackResult RDMNack.NR_DATA_OUT_OF_RANGE none none false)
      (.nackResp reason) = false := by
    simp only [entryMatches, nackResult]
    simpa using fun hv => (h2 hv.symm).elim
  simp [firstMatch, setUnsupportedLanguageExpected, e1, e2]

/-- Witness for C6 with an empty capability list and the NR_UNKNOWN_PID
rejection reason. -/
theorem unsupported_language_nack_reasons_witness :
    ([] : List String).contains "zz" = false
      ∧ firstMatch setUnsupportedLanguageExpected
          (.nackResp RDMNack.NR_UNKNOWN_PID) = none :=
  ⟨by decide,
   (unsupported_language_nack_reasons [] (by decide) RDMNack.NR_UNKNOWN_PID
     (by decide) (by decide)).2.2.2⟩

/-- C7: registering a bare ExpectedResult behaves exactly like registering
the one-element list holding it: the match outcome agrees on every
response, in general and in particular for the scalar registered by
GetDeviceInfo.Test and for the scalar branch of
GetParamDescriptionForNonManufacturerPid (taken when a manufacturer
parameter such as 0x8000 was declared). -/
theorem scalar_results_equal_singleton_list :
    (∀ (e : ExpectedResult) (r : Response),
        firstMatch (addExpectedResults (.single e)) r =
          firstMatch (addExpectedResults (.many [e])) r)
      ∧ (∀ r : Response,
          firstMatch (addExpectedResults (.single getDeviceInfoAck)) r =
            firstMatch (addExpectedResults (.many [getDeviceInfoAck])) r)
      ∧ (∀ r : Response,
          firstMatch
              (addExpectedResults
                (getParamDescriptionForNonManufacturerPidResults [32768])) r =
            firstMatch
              (addExpectedResults
                (.many [nackResult RDMNack.NR_DATA_OUT_OF_RANGE none none false]))
              r) :=
  ⟨fun _ _ => rfl, fun _ => rfl, fun _ => rfl⟩

-- GetPersonalities (lines 908-945)

/-- Terminal outcome of the GetPersonalities continuation chain. -/
inductive GPResult where
  | notRun (message : String)
  | stopped
  | failed (message : String)
deriving DecidableEq, Repr

/-- The `_GetPersonality` continuation loop (lines 921-940), driven under
the assumption that every issued GET is acknowledged, so that the
registered continuation re-enters `_GetPersonality`; the first component
counts the GET requests issued.  The index is incremented first; once it
exceeds the stored personality count the test stores its property and
stops (NOT-RUN when the count was zero), once it reaches
MAX_PERSONALITY_NUMBER the test is failed, and otherwise one more GET for
the current index is sent. -/
def gpLoop (personality_count : Nat) (current_index : Nat) (gets : Nat) :
    Nat × GPResult :=
  let idx := current_index + 1
  if idx > personality_count then
    (gets,
     if personality_count = 0 then .notRun " No personalities declared"
     else .stopped)
  else if idx ≥ MAX_PERSONALITY_NUMBER then
    (gets, .failed "Could not find all personalities")
  else gpLoop personality_count idx (gets + 1)
termination_by MAX_PERSONALITY_NUMBER - current_index
decreasing_by simp only [MAX_PERSONALITY_NUMBER] at *; omega

/-- GetPersonalities.Test (lines 915-919): index and request counter start
at zero and the loop is entered. -/
def getPersonalitiesRun (personality_count : Nat) : Nat × GPResult :=
  gpLoop personality_count 0 0

/-- The loop issues at most `min` of the remaining personalities and the
remaining index budget many further GET requests. -/
theorem gpLoop_gets_le (personality_count current_index gets : Nat) :
    (gpLoop personality_count current_index gets).1 ≤
      gets + min (personality_count - current_index)
        (MAX_PERSONALITY_NUMBER - current_index) := by
  rw [gpLoop]
  simp only [MAX_PERSONALITY_NUMBER] at *
  split
  · omega
  · split
    · omega
    · have ih := gpLoop_gets_le personality_count (current_index + 1) (gets + 1)
      simp only [MAX_PERSONALITY_NUMBER] at ih
      omega
termination_by MAX_PERSONALITY_NUMBER - current_index
decreasing_by simp only [MAX_PERSONALITY_NUMBER] at *; omega

-- FindSubDevices (lines 260-299)

/-- Terminal outcome of one entry into the `_CheckForSubDevice`
continuation. -/
inductive FSDOutcome where
  | notRun (message : String) (sub_device_indices : List Nat)
  | stopped (sub_device_indices : List Nat)
  | failed (found expected : Nat)
  | pyError (message : String)
deriving DecidableEq, Repr

/-- FindSubDevices._CheckForSubDevice (lines 273-295), translated as
written: when all declared sub devices were found the property is stored
and the test stops (NOT-RUN when the declared count is zero); when the
index reaches MAX_VALID_SUB_DEVICE the test is failed; otherwise the
source evaluates `self.NackResponse(RDMNack,NR_SUB_DEVICE_OUT_OF_RANGE,
action=...)` (line 290) whose comma makes NR_SUB_DEVICE_OUT_OF_RANGE a
bare name that is bound nowhere, so building the expected-result list
raises NameError before any GET is sent. -/
def findSubDevicesCheck (device_count : Nat) (sub_devices : List Nat)
    (current_index : Nat) : FSDOutcome :=
  if sub_devices.length = device_count then
    if device_count = 0 then .notRun " No sub devices declared" sub_devices
    else .stopped sub_devices
  else if current_index ≥ MAX_VALID_SUB_DEVICE then
    .failed sub_devices.length device_count
  else .pyError "NameError: name NR_SUB_DEVICE_OUT_OF_RANGE is not defined"

/-- FindSubDevices.Test (lines 267-271): the found list and index start
empty and zero and the continuation is entered. -/
def findSubDevicesTest (sub_device_count : Nat) : FSDOutcome :=
  findSubDevicesCheck sub_device_count [] 0

/-- C3: the GetPersonalities chain issues at most
min(personality_count, MAX_PERSONALITY_NUMBER) GET requests, but the
FindSubDevices chain, run against a device declaring two sub devices,
raises NameError on its first continuation entry instead of reaching a
final verdict. -/
theorem continuation_bound_and_find_sub_devices_error :
    (∀ personality_count : Nat,
        (getPersonalitiesRun personality_count).1 ≤
          min personality_count MAX_PERSONALITY_NUMBER)
      ∧ findSubDevicesTest 2 =
          .pyError "NameError: name NR_SUB_DEVICE_OUT_OF_RANGE is not defined" := by
  refine ⟨fun personality_count => ?_, by decide⟩
  have h := gpLoop_gets_le personality_count 0 0
  simpa [getPersonalitiesRun] using h

/-- C8: FindSubDevices against a device declaring one sub device raises
NameError while building the expected-result list of its first sub-device
GET, instead of sending the request. -/
theorem find_sub_devices_check_raises_name_error :
    findSubDevicesTest 1 =
      .pyError "NameError: name NR_SUB_DEVICE_OUT_OF_RANGE is not defined" := by
  decide

-- GetRealTimeClock (lines 1443-1469)

/-- ALLOWED_RANGES of GetRealTimeClock (lines 1448-1454), as data. -/
def realTimeClockAllowedRanges : List (String × (Int × Int)) :=
  [("year", (2003, 65535)), ("month", (1, 12)), ("day", (1, 31)),
   ("hour", (0, 23)), ("minute", (0, 59))]

/-- Outcome of a VerifyResult body. -/
inductive VerifyOutcome where
  | completed (warnings : List String)
  | pyError (message : String)
deriving DecidableEq, Repr

/-- GetRealTimeClock.VerifyResult (lines 1461-1469), translated as
written: an unsuccessful status returns immediately with no warnings; a
successful one reaches `for field, range in ALLOWED_RANGES:` (line 1465)
where the bare name ALLOWED_RANGES (a class attribute, reachable only as
`self.ALLOWED_RANGES`) is bound neither locally nor at module level, so
the loop header raises NameError before any field is compared. -/
def getRealTimeClockVerifyResult (wasSuccessfull : Bool)
    (fields : List (String × Int)) : VerifyOutcome :=
  if wasSuccessfull = false then .completed []
  else .pyError "NameError: name ALLOWED_RANGES is not defined"

/-- C9: for every acknowledged REAL_TIME_CLOCK response,
GetRealTimeClock.VerifyResult raises NameError instead of comparing the
clock fields against realTimeClockAllowedRanges; in particular it does so
on an in-range clock reading. -/
theorem real_time_clock_verify_raises_name_error :
    (∀ fields : List (String × Int),
        getRealTimeClockVerifyResult true fields =
          .pyError "NameError: name ALLOWED_RANGES is not defined")
      ∧ getRealTimeClockVerifyResult true
          [("year", 2010), ("month", 6), ("day", 15), ("hour", 12),
           ("minute", 30), ("second", 0)] =
          .pyError "NameError: name ALLOWED_RANGES is not defined" :=
  ⟨fun _ => rfl, rfl⟩

-- GetLanguageCapabilities / SetLanguage (lines 652-730)

/-- A Python value stored under the languages_capabilities property: the
empty-list default written on failure, or the set built from the returned
languages. -/
inductive PyLangs where
  | pySet (elems : List String)
  | pyList (elems : List String)
deriving DecidableEq, Repr

/-- Python truthiness of the stored collection: non-empty. -/
def PyLangs.truthy : PyLangs → Bool
  | .pySet l => !l.isEmpty
  | .pyList l => !l.isEmpty

/-- Python `len` of the stored collection. -/
def PyLangs.len : PyLangs → Nat
  | .pySet l => l.length
  | .pyList l => l.length

/-- Python subscripting of the stored collection: a Python 2 set does not
support indexing at all, and a list raises IndexError past its end. -/
def PyLangs.subscript : PyLangs → Nat → Except String String
  | .pySet _, _ => .error "TypeError: set object does not support indexing"
  | .pyList l, i =>
      match l.get? i with
      | some x => .ok x
      | none => .error "IndexError: list index out of range"

/-- GetLanguageCapabilities.VerifyResult (lines 663-679): on failure the
property is set to the empty list; on success the languages are collected
into a Python set (`language_set`, lines 673-679) which is stored, here
with one representative iteration order. -/
def getLanguageCapabilitiesVerifyResult (wasSuccessfull : Bool)
    (languages : List String) : PyLangs :=
  if wasSuccessfull = false then .pyList []
  else .pySet languages.eraseDups

/-- SetLanguage.Test (lines 705-725), translated as written over the stored
property value: with more than one available language the first one is
subscripted out and, when it equals the current language, index 2 is read
instead; with exactly one it is subscripted out; with none the literal
"en" is sent expecting a nack. -/
def setLanguageTest (languages_capabilities : PyLangs) (language : String) :
    TestAction :=
  let ack := ackResult [] [] none none true
  let nack := nackResult RDMNack.NR_UNSUPPORTED_COMMAND_CLASS none none false
  if languages_capabilities.truthy then
    if languages_capabilities.len > 1 then
      match languages_capabilities.subscript 0 with
      | .error e => .pyError e
      | .ok first =>
          if first = language then
            match languages_capabilities.subscript 2 with
            | .error e => .pyError e
            | .ok third => .setRequest ROOT_DEVICE "LANGUAGE" [third] [ack]
          else .setRequest ROOT_DEVICE "LANGUAGE" [first] [ack]
    else
      match languages_capabilities.subscript 0 with
      | .error e => .pyError e
      | .ok only => .setRequest ROOT_DEVICE "LANGUAGE" [only] [ack, nack]
  else .setRequest ROOT_DEVICE "LANGUAGE" ["en"] [nack]

/-- C10: the languages_capabilities property is stored as a set, and
SetLanguage.Test subscripts it, which raises TypeError for any non-empty
capability collection; even under a list-valued store, the two-element
case whose first element equals the current language reads index 2 and
raises IndexError.  No SET request is sent in either case. -/
theorem set_language_indexing_error :
    getLanguageCapabilitiesVerifyResult true ["en", "fr"] = .pySet ["en", "fr"]
      ∧ setLanguageTest (.pySet ["en", "fr"]) "en" =
          .pyError "TypeError: set object does not support indexing"
      ∧ setLanguageTest (.pyList ["en", "fr"]) "en" =
          .pyError "IndexError: list index out of range" := by
  refine ⟨by decide, by decide, by decide⟩
